import Mathlib

/-!
Shallow embedding of `src/display.py`, a MicroPython ST7789 display driver.

The driver talks to the panel over an SPI bus gated by a chip-select (cs)
line, with a data/command (dc) line distinguishing command bytes from data
bytes.  We model the observable transport traffic of each driver method as a
list of `BusEvent`s (cs transitions, dc transitions, raw byte writes), and the
driver's mutable attributes as an explicit `DisplayState` record.

Python integers are modelled as `Int` where the source can receive negative
values (coordinates, lengths), and as `Nat` for values that are always
non-negative in the source (command opcodes, option bits, table entries).
Python's `%` on a positive modulus agrees with `Int.emod`.
-/

/-! ### Command constants (display.py lines 26-39) -/

def SLPOUT : Nat := 0x11
def INVOFF : Nat := 0x20
def INVON : Nat := 0x21
def CASET : Nat := 0x2A
def RASET : Nat := 0x2B
def RAMWR : Nat := 0x2C
def MADCTL : Nat := 0x36
def VSCRDEF : Nat := 0x33
def VSCSAD : Nat := 0x37

/-! ### Wrap option bits (display.py lines 48-51) -/

def OPTIONS_WRAP : Nat := 0x01
def OPTIONS_WRAP_H : Nat := 0x02
def OPTIONS_WRAP_V : Nat := 0x04

/-- Rotation table for native 240x320 panels: entries are
`(madctl, width, height, xstart, ystart)` (display.py lines 57-62). -/
def ROT_240x320 : List (Nat × Nat × Nat × Nat × Nat) :=
  [(0x00, 240, 320, 0, 0), (0x60, 320, 240, 0, 0),
   (0xC0, 240, 320, 0, 0), (0xA0, 320, 240, 0, 0)]

/-- Rotation table for native 240x240 panels (display.py lines 63-68). -/
def ROT_240x240 : List (Nat × Nat × Nat × Nat × Nat) :=
  [(0x00, 240, 240, 0, 0), (0x60, 240, 240, 0, 0),
   (0xC0, 240, 240, 0, 80), (0xA0, 240, 240, 80, 0)]

/-- One observable action on the SPI transport: chip-select low/high,
data/command line low/high, or a raw byte write. -/
inductive BusEvent where
  | csLow : BusEvent
  | csHigh : BusEvent
  | dcLow : BusEvent
  | dcHigh : BusEvent
  | write : List Nat → BusEvent
deriving Repr, DecidableEq

/-- The driver's mutable attributes.  `panelWidth`/`panelHeight` are the
native dimensions passed to the constructor (they select the rotation table);
`width`/`height`/`xstart`/`ystart` are the active geometry written by
`set_rotation`. -/
structure DisplayState where
  colorOrder : Nat
  options : Nat
  panelWidth : Nat
  panelHeight : Nat
  width : Nat
  height : Nat
  xstart : Nat
  ystart : Nat
  rotationIdx : Nat
deriving Repr, DecidableEq

/-- `Display._cmd` (display.py lines 175-179): cs low, dc low, write one
byte, cs high. -/
def cmdEvents (c : Nat) : List BusEvent :=
  [.csLow, .dcLow, .write [c], .csHigh]

/-- `Display._data` on a byte sequence (display.py lines 181-188): cs low,
dc high, write the bytes, cs high. -/
def dataEvents (bs : List Nat) : List BusEvent :=
  [.csLow, .dcHigh, .write bs, .csHigh]

/-- `struct.pack` with format `>H`: one value as two big-endian bytes.
The Python call raises for values outside `[0, 0xFFFF]`; the driver only
reaches it with in-range values, and all theorems below stay in range. -/
def packBE16 (v : Int) : List Nat :=
  [v.toNat / 256 % 256, v.toNat % 256]

/-- The numeric value encoded by a 2-byte big-endian list (for stating that
packed registers really carry the intended value). -/
def be16val (bs : List Nat) : Int :=
  ((256 * bs.getD 0 0 + bs.getD 1 0 : Nat) : Int)

/-- Which rotation table the constructor picks (display.py lines 119-121). -/
def rotTbl (w h : Nat) : List (Nat × Nat × Nat × Nat × Nat) :=
  if w = 240 ∧ h = 320 then ROT_240x320 else ROT_240x240

/-- `Display.set_rotation` (display.py lines 147-160): index the rotation
table by `rotation % len(table)`, store the entry as the active geometry, and
send MADCTL with `madctl | color_order` as command+data inside a single
cs transaction.  Returns the new state and the emitted bus events. -/
def setRotation (s : DisplayState) (rotation : Int) : DisplayState × List BusEvent :=
  let tbl := rotTbl s.panelWidth s.panelHeight
  let idx := (rotation % (tbl.length : Int)).toNat
  let e := tbl.getD idx (0, 0, 0, 0, 0)
  let val := e.1 ||| s.colorOrder
  ({ s with rotationIdx := idx, width := e.2.1, height := e.2.2.1,
            xstart := e.2.2.2.1, ystart := e.2.2.2.2 },
   [.csLow, .dcLow, .write [MADCTL], .dcHigh, .write [val], .csHigh])

/-- The driver state right after `__init__` reaches `set_rotation(rotation)`
(display.py line 138): config stored, active geometry not yet set (the
active-geometry fields here are placeholders that `setRotation` overwrites). -/
def initState (width height colorOrder options : Nat) : DisplayState :=
  { colorOrder := colorOrder, options := options,
    panelWidth := width, panelHeight := height,
    width := width, height := height, xstart := 0, ystart := 0,
    rotationIdx := 0 }

/-- Constructor model: state and MADCTL traffic after `__init__` applies the
requested rotation. -/
def mkDisplay (width height colorOrder options : Nat) (rotation : Int) :
    DisplayState × List BusEvent :=
  setRotation (initState width height colorOrder options) rotation

/-- `Display.sleep_mode` (display.py lines 166-168), exactly as written in
the source: `self._cmd(_SLPOUT if not enable else _SLPOUT)`. -/
def sleepModeEvents (enable : Bool) : List BusEvent :=
  cmdEvents (if !enable then SLPOUT else SLPOUT)

/-- `Display._set_window` (display.py lines 190-195): CASET with the
x-range shifted by `xstart`, RASET with the y-range shifted by `ystart`
(both as big-endian 16-bit pairs), then RAMWR. -/
def setWindowEvents (s : DisplayState) (x0 y0 x1 y1 : Int) : List BusEvent :=
  cmdEvents CASET ++
    dataEvents (packBE16 (x0 + (s.xstart : Int)) ++ packBE16 (x1 + (s.xstart : Int))) ++
  cmdEvents RASET ++
    dataEvents (packBE16 (y0 + (s.ystart : Int)) ++ packBE16 (y1 + (s.ystart : Int))) ++
  cmdEvents RAMWR

/-- The 256-byte intermediate buffer of `fill_rect` (display.py lines
207-209): bytes alternate `hi`, `lo`. -/
def colorBuf (hi lo : Nat) : List Nat :=
  (List.replicate 128 [hi, lo]).flatten

/-- The chunked data-streaming loop of `fill_rect` (display.py lines
210-214): while bytes remain, send `min 256 rem` bytes of the buffer. -/
def fillData (hi lo : Nat) (rem : Nat) : List BusEvent :=
  if rem = 0 then []
  else
    dataEvents ((colorBuf hi lo).take (min 256 rem)) ++
      fillData hi lo (rem - min 256 rem)
termination_by rem
decreasing_by simp_wf; omega

/-- `Display.fill_rect` (display.py lines 201-214): set the window to the
rectangle, then stream `w*h*2` bytes of the color pattern in chunks of at
most 256. -/
def fillRectEvents (s : DisplayState) (x y w h : Int) (color : Nat) : List BusEvent :=
  setWindowEvents s x y (x + w - 1) (y + h - 1) ++
    fillData ((color >>> 8) &&& 0xFF) (color &&& 0xFF) (w * h * 2).toNat

/-- `Display.pixel` (display.py lines 216-226): wrap `x` and/or `y` by the
active dimensions when the corresponding option bit is set, then draw (1x1
window plus two data bytes) only if the coordinates are in range. -/
def pixelEvents (s : DisplayState) (x y : Int) (color : Nat) : List BusEvent :=
  let xw := if s.options &&& OPTIONS_WRAP_H ≠ 0 then x % (s.width : Int) else x
  let yw := if s.options &&& OPTIONS_WRAP_V ≠ 0 then y % (s.height : Int) else y
  if 0 ≤ xw ∧ xw < (s.width : Int) ∧ 0 ≤ yw ∧ yw < (s.height : Int) then
    setWindowEvents s xw yw xw yw ++
      dataEvents [(color >>> 8) &&& 0xFF, color &&& 0xFF]
  else []

/-- `Display.hline` (display.py lines 228-234): a single `fill_rect` of
height 1 when the `_OPTIONS_WRAP` bit is clear, else one `pixel` per step. -/
def hlineEvents (s : DisplayState) (x y length : Int) (color : Nat) : List BusEvent :=
  if s.options &&& OPTIONS_WRAP = 0 then fillRectEvents s x y length 1 color
  else (List.range length.toNat).flatMap fun i => pixelEvents s (x + (i : Int)) y color

/-- `Display.vline` (display.py lines 236-242): a single `fill_rect` of
width 1 when the `_OPTIONS_WRAP` bit is clear, else one `pixel` per step. -/
def vlineEvents (s : DisplayState) (x y length : Int) (color : Nat) : List BusEvent :=
  if s.options &&& OPTIONS_WRAP = 0 then fillRectEvents s x y 1 length color
  else (List.range length.toNat).flatMap fun i => pixelEvents s x (y + (i : Int)) color

/-- `Display.scroll` (display.py lines 381-386): VSCRDEF with the big-endian
triple `(top, scroll_h, self.height - top - scroll_h)` — `self.height` is the
current active height — then VSCSAD with `offset`. -/
def scrollEvents (s : DisplayState) (top scroll_h offset : Int) : List BusEvent :=
  cmdEvents VSCRDEF ++
    dataEvents (packBE16 top ++ packBE16 scroll_h ++
      packBE16 ((s.height : Int) - top - scroll_h)) ++
  cmdEvents VSCSAD ++ dataEvents (packBE16 offset)

/-- `Display.color565` (display.py lines 142-145). -/
def color565 (r g b : Nat) : Nat :=
  ((r &&& 0xF8) <<< 8) ||| ((g &&& 0xFC) <<< 3) ||| (b >>> 3)

/-! ### Trace accounting

To state claims about "data bytes streamed" and "window-set transactions" we
fold over a trace while tracking the level of the dc line (`true` = data). -/

/-- Total bytes written while the dc line is high (data mode). -/
def dataBytesAux : Bool → List BusEvent → Nat
  | _, [] => 0
  | _, BusEvent.dcLow :: rest => dataBytesAux false rest
  | _, BusEvent.dcHigh :: rest => dataBytesAux true rest
  | dc, BusEvent.write bs :: rest =>
      (if dc then bs.length else 0) + dataBytesAux dc rest
  | dc, BusEvent.csLow :: rest => dataBytesAux dc rest
  | dc, BusEvent.csHigh :: rest => dataBytesAux dc rest

/-- Bytes written while the dc line is low, in order: the sequence of
command opcodes a trace issues. -/
def cmdWritesAux : Bool → List BusEvent → List Nat
  | _, [] => []
  | _, BusEvent.dcLow :: rest => cmdWritesAux false rest
  | _, BusEvent.dcHigh :: rest => cmdWritesAux true rest
  | dc, BusEvent.write bs :: rest =>
      (if dc then [] else bs) ++ cmdWritesAux dc rest
  | dc, BusEvent.csLow :: rest => cmdWritesAux dc rest
  | dc, BusEvent.csHigh :: rest => cmdWritesAux dc rest

/-! ### The Bresenham line rasterizer (display.py lines 244-285)

`line` emits calls to `pixel`/`hline`/`vline`; we model its output at that
call level. -/

/-- A drawing-primitive call emitted by `Display.line`. -/
inductive DrawCall where
  | pixel : Int → Int → DrawCall
  | hline : Int → Int → Int → DrawCall
  | vline : Int → Int → Int → DrawCall
deriving Repr, DecidableEq

/-- Emit one accumulated run (display.py lines 263-271 and 277-285): a run
of length 1 becomes `pixel`, longer runs become `vline`/`hline` depending on
`steep`. -/
def emitRun (steep : Bool) (y0 start length : Int) : List DrawCall :=
  if length = 1 then
    [.pixel (if steep then y0 else start) (if steep then start else y0)]
  else if steep then [.vline y0 start length]
  else [.hline start y0 length]

/-- The `for x in range(x0, x1+1)` loop of `Display.line` (lines 259-275),
with `fuel` iterations remaining and `x` the current loop variable; after the
loop the trailing run is flushed (lines 276-285). -/
def lineLoop (steep : Bool) (dx dy ystep : Int) :
    Nat → Int → Int → Int → Int → Int → List DrawCall
  | 0, _, y0, _, start, length =>
      if 0 < length then emitRun steep y0 start length else []
  | fuel + 1, x, y0, err, start, length =>
      let length1 := length + 1
      let err1 := err - dy
      if err1 < 0 then
        emitRun steep y0 start length1 ++
          lineLoop steep dx dy ystep fuel (x + 1) (y0 + ystep) (err1 + dx) (x + 1) 0
      else
        lineLoop steep dx dy ystep fuel (x + 1) y0 err1 start length1

/-- `Display.line` (display.py lines 244-285): axis swap for steep lines,
endpoint swap so `x0 ≤ x1`, then the run-accumulating Bresenham loop. -/
def lineCalls (x0 y0 x1 y1 : Int) : List DrawCall :=
  let steep := (x1 - x0).natAbs < (y1 - y0).natAbs
  let p := if steep then (y0, x0, y1, x1) else (x0, y0, x1, y1)
  let q := if p.1 > p.2.2.1 then (p.2.2.1, p.2.2.2, p.1, p.2.1) else p
  let a0 := q.1
  let b0 := q.2.1
  let a1 := q.2.2.1
  let b1 := q.2.2.2
  let dx := a1 - a0
  let dy := |b1 - b0|
  let err := dx / 2
  let ystep : Int := if b0 < b1 then 1 else -1
  lineLoop steep dx dy ystep (a1 + 1 - a0).toNat a0 b0 err a0 0

/-! ### Helper lemmas -/

/-- Flattening `n` copies of a list multiplies its length by `n`. -/
lemma flatten_replicate_length {α : Type} (l : List α) :
    ∀ n, (List.replicate n l).flatten.length = n * l.length := by
  intro n
  induction n with
  | zero => simp
  | succ n ih =>
    rw [List.replicate_succ, List.flatten_cons, List.length_append, ih]
    ring

/-- The intermediate fill buffer always holds exactly 256 bytes. -/
lemma colorBuf_length (hi lo : Nat) : (colorBuf hi lo).length = 256 := by
  rw [colorBuf, flatten_replicate_length]
  rfl

/-- The fill buffer alternates `hi` at even offsets and `lo` at odd offsets. -/
lemma replicate_pair_getD (hi lo : Nat) :
    ∀ n i, i < n →
      (List.replicate n [hi, lo]).flatten.getD (2 * i) 0 = hi ∧
      (List.replicate n [hi, lo]).flatten.getD (2 * i + 1) 0 = lo := by
  intro n
  induction n with
  | zero => omega
  | succ n ih =>
    intro i hlt
    rw [List.replicate_succ]
    cases i with
    | zero => simp
    | succ j =>
      have h2 : 2 * (j + 1) = 2 * j + 1 + 1 := by ring
      rw [h2]
      simp only [List.flatten_cons, List.cons_append, List.nil_append,
        List.getD_cons_succ]
      exact ih j (by omega)

/-- The chunk loop of `fill_rect` streams exactly `rem` data bytes. -/
lemma dataBytes_fillData (hi lo : Nat) :
    ∀ n dc, dataBytesAux dc (fillData hi lo n) = n := by
  intro n
  induction n using Nat.strong_induction_on with
  | _ n ih =>
    intro dc
    rw [fillData]
    split
    · simp only [dataBytesAux]; omega
    · rename_i hn
      have ih2 := ih (n - min 256 n) (by omega) true
      simp [dataEvents, dataBytesAux, List.length_take, colorBuf_length, ih2]

/-- The chunk loop of `fill_rect` issues no command bytes. -/
lemma cmdWrites_fillData (hi lo : Nat) :
    ∀ n dc, cmdWritesAux dc (fillData hi lo n) = [] := by
  intro n
  induction n using Nat.strong_induction_on with
  | _ n ih =>
    intro dc
    rw [fillData]
    split
    · simp only [cmdWritesAux]
    · have ih2 := ih (n - min 256 n) (by omega) true
      simp [dataEvents, cmdWritesAux, ih2]

/-- A big-endian 16-bit pack of an in-range value decodes back to it. -/
lemma be16val_packBE16 (v : Int) (h0 : 0 ≤ v) (h1 : v < 65536) :
    be16val (packBE16 v) = v := by
  simp only [be16val, packBE16, List.getD_cons_zero, List.getD_cons_succ]
  omega

/-- A single `fill_rect` issues exactly one window-set transaction: the
command opcodes on the bus are CASET, RASET, RAMWR, once each, regardless of
the rectangle size. -/
lemma cmdWrites_fillRect (s : DisplayState) (x y w h : Int) (color : Nat) :
    cmdWritesAux false (fillRectEvents s x y w h color) = [CASET, RASET, RAMWR] := by
  simp [fillRectEvents, setWindowEvents, cmdEvents, dataEvents, cmdWritesAux,
    cmdWrites_fillData]

/-! ### Claim theorems -/

/-- C3: the code is buggy here — `sleep_mode` sends the sleep-out command
`_SLPOUT` (0x11) for both `enable=True` and `enable=False` (the conditional
`_SLPOUT if not enable else _SLPOUT` has identical arms), so the two traces
are equal instead of differing as the claim requires. -/
theorem sleep_mode_same_command :
    sleepModeEvents true = sleepModeEvents false ∧
    sleepModeEvents true = cmdEvents SLPOUT := by
  decide

/-- C7: with wrap disabled, `line(0,0,5,0)` emits exactly one `hline` call of
length 6 (and nothing else), and `line(0,0,5,5)` emits exactly the 6 `pixel`
calls `(i, i)` for `i = 0..5` — the reference Bresenham pixel set of the
45-degree diagonal — and no `hline`/`vline` calls. -/
theorem line_reference_cases :
    lineCalls 0 0 5 0 = [.hline 0 0 6] ∧
    lineCalls 0 0 5 5 =
      (List.range 6).map (fun i => DrawCall.pixel (i : Int) (i : Int)) := by
  decide

/-- C1 counterexample: after rotating a native 240x320 panel to rotation 1
(active height 240), `scroll(10, 100, 0)` does NOT program the third
scroll-definition field from the native panel height (it would be
320-10-100 = 210); the code emits 240-10-100 = 130. -/
theorem scroll_native_height_cex :
    ¬ (scrollEvents (mkDisplay 240 320 0 0 1).1 10 100 0 =
        cmdEvents VSCRDEF ++
          dataEvents (packBE16 10 ++ packBE16 100 ++
            packBE16 (((mkDisplay 240 320 0 0 1).1.panelHeight : Int) - 10 - 100)) ++
        cmdEvents VSCSAD ++ dataEvents (packBE16 0)) := by
  decide

/-- C1 (amended): `scroll(top, height, offset)` programs the vertical-scroll-
definition register with the big-endian 16-bit triple
`(top, height, activeHeight - top - height)` — where `activeHeight` is the
current rotation-dependent `self.height`, not the native panel height — and
then programs the scroll-address register with `offset`; each packed field
decodes back to the intended value. -/
theorem scroll_uses_active_height (s : DisplayState) (top scroll_h offset : Int)
    (h1 : 0 ≤ top) (h2 : 0 ≤ scroll_h) (h3 : top + scroll_h ≤ (s.height : Int))
    (h4 : (s.height : Int) < 65536) (h5 : 0 ≤ offset) (h6 : offset < 65536) :
    scrollEvents s top scroll_h offset =
      cmdEvents VSCRDEF ++
        dataEvents (packBE16 top ++ packBE16 scroll_h ++
          packBE16 ((s.height : Int) - top - scroll_h)) ++
      cmdEvents VSCSAD ++ dataEvents (packBE16 offset) ∧
    be16val (packBE16 top) = top ∧
    be16val (packBE16 scroll_h) = scroll_h ∧
    be16val (packBE16 ((s.height : Int) - top - scroll_h)) =
      (s.height : Int) - top - scroll_h ∧
    be16val (packBE16 offset) = offset := by
  refine ⟨rfl, be16val_packBE16 _ h1 (by omega), be16val_packBE16 _ h2 (by omega),
    be16val_packBE16 _ (by omega) (by omega), be16val_packBE16 _ h5 h6⟩

/-- Witness for the amended C1 theorem at a concrete in-range input. -/
theorem scroll_uses_active_height_witness :
    scrollEvents (initState 240 320 0 0) 10 100 7 =
      cmdEvents VSCRDEF ++
        dataEvents (packBE16 10 ++ packBE16 100 ++
          packBE16 (((initState 240 320 0 0).height : Int) - 10 - 100)) ++
      cmdEvents VSCSAD ++ dataEvents (packBE16 7) ∧
    be16val (packBE16 10) = 10 ∧
    be16val (packBE16 100) = 100 ∧
    be16val (packBE16 (((initState 240 320 0 0).height : Int) - 10 - 100)) =
      ((initState 240 320 0 0).height : Int) - 10 - 100 ∧
    be16val (packBE16 7) = 7 :=
  scroll_uses_active_height (initState 240 320 0 0) 10 100 7 (by decide) (by decide)
    (by decide) (by decide) (by decide) (by decide)

/-- C2 counterexample: with only the horizontal-wrap bit (0x02) set in the
options, `hline(0, 0, 3, 5)` does NOT decompose into per-pixel calls — the
branch tests the separate `_OPTIONS_WRAP` bit (0x01), which is clear, so a
single `fill_rect` runs instead. -/
theorem hline_wrapH_cex :
    ¬ (hlineEvents (initState 240 320 0 OPTIONS_WRAP_H) 0 0 3 5 =
        (List.range (3 : Nat)).flatMap
          (fun i => pixelEvents (initState 240 320 0 OPTIONS_WRAP_H)
            (0 + (i : Int)) 0 5)) := by
  decide

/-- C2 (amended): `hline`/`vline` decompose into individual `pixel` calls
exactly when the dedicated wrap bit `_OPTIONS_WRAP` (0x01) is set in the
options; the wrap-horizontal (0x02) and wrap-vertical (0x04) bits alone do
not trigger decomposition.  When the 0x01 bit is clear, each call is a
single `fill_rect` of thickness 1, which issues one window-set bus
transaction (command opcodes CASET, RASET, RAMWR exactly once) regardless of
length. -/
theorem hv_line_wrap_bit_branch (s : DisplayState) (x y length : Int) (color : Nat) :
    hlineEvents s x y length color =
      (if s.options &&& OPTIONS_WRAP = 0 then fillRectEvents s x y length 1 color
       else (List.range length.toNat).flatMap
         fun i => pixelEvents s (x + (i : Int)) y color) ∧
    vlineEvents s x y length color =
      (if s.options &&& OPTIONS_WRAP = 0 then fillRectEvents s x y 1 length color
       else (List.range length.toNat).flatMap
         fun i => pixelEvents s x (y + (i : Int)) color) ∧
    cmdWritesAux false (fillRectEvents s x y length 1 color) =
      [CASET, RASET, RAMWR] ∧
    cmdWritesAux false (fillRectEvents s x y 1 length color) =
      [CASET, RASET, RAMWR] :=
  ⟨rfl, rfl, cmdWrites_fillRect s x y length 1 color,
    cmdWrites_fillRect s x y 1 length color⟩

/-- C4: `fill_rect(x, y, w, h, color)` first sets the addressing window to
the rectangle and then streams exactly `w*h*2` data bytes, produced from a
fixed 256-byte buffer (its size independent of `w` and `h`) filled with the
alternating high/low bytes of the color and replayed in chunks. -/
theorem fillRect_streams_exact (s : DisplayState) (x y w h : Int) (color : Nat)
    (hw : 0 ≤ w) (hh : 0 ≤ h) :
    fillRectEvents s x y w h color =
      setWindowEvents s x y (x + w - 1) (y + h - 1) ++
        fillData ((color >>> 8) &&& 0xFF) (color &&& 0xFF) (w * h * 2).toNat ∧
    ((dataBytesAux true
        (fillData ((color >>> 8) &&& 0xFF) (color &&& 0xFF) (w * h * 2).toNat) : Nat) : Int)
      = w * h * 2 ∧
    (colorBuf ((color >>> 8) &&& 0xFF) (color &&& 0xFF)).length = 256 ∧
    ∀ i < 128,
      (colorBuf ((color >>> 8) &&& 0xFF) (color &&& 0xFF)).getD (2 * i) 0 =
        (color >>> 8) &&& 0xFF ∧
      (colorBuf ((color >>> 8) &&& 0xFF) (color &&& 0xFF)).getD (2 * i + 1) 0 =
        color &&& 0xFF := by
  refine ⟨rfl, ?_, colorBuf_length _ _, ?_⟩
  · rw [dataBytes_fillData]
    have : (0 : Int) ≤ w * h * 2 := by positivity
    omega
  · intro i hi128
    exact replicate_pair_getD _ _ 128 i hi128

/-- Witness for the C4 theorem at a concrete input. -/
theorem fillRect_streams_exact_witness :
    fillRectEvents (initState 240 320 0 0) 3 4 10 7 0xF800 =
      setWindowEvents (initState 240 320 0 0) 3 4 (3 + 10 - 1) (4 + 7 - 1) ++
        fillData ((0xF800 >>> 8) &&& 0xFF) (0xF800 &&& 0xFF) ((10 : Int) * 7 * 2).toNat ∧
    ((dataBytesAux true
        (fillData ((0xF800 >>> 8) &&& 0xFF) (0xF800 &&& 0xFF) ((10 : Int) * 7 * 2).toNat) : Nat) : Int)
      = 10 * 7 * 2 ∧
    (colorBuf ((0xF800 >>> 8) &&& 0xFF) (0xF800 &&& 0xFF)).length = 256 ∧
    ∀ i < 128,
      (colorBuf ((0xF800 >>> 8) &&& 0xFF) (0xF800 &&& 0xFF)).getD (2 * i) 0 =
        (0xF800 >>> 8) &&& 0xFF ∧
      (colorBuf ((0xF800 >>> 8) &&& 0xFF) (0xF800 &&& 0xFF)).getD (2 * i + 1) 0 =
        0xF800 &&& 0xFF :=
  fillRect_streams_exact (initState 240 320 0 0) 3 4 10 7 0xF800 (by decide) (by decide)

/-- C5: constructing with native panel 240x320 and requesting rotation 1
yields active geometry `width=320, height=240, xstart=0, ystart=0`, and the
bus sees the MADCTL opcode followed by the table's rotation byte 0x60 OR'd
with the configured color-order bits, inside a single chip-select
transaction. -/
theorem rotation1_geometry_and_madctl (co opts : Nat) :
    (mkDisplay 240 320 co opts 1).1.width = 320 ∧
    (mkDisplay 240 320 co opts 1).1.height = 240 ∧
    (mkDisplay 240 320 co opts 1).1.xstart = 0 ∧
    (mkDisplay 240 320 co opts 1).1.ystart = 0 ∧
    (mkDisplay 240 320 co opts 1).2 =
      [.csLow, .dcLow, .write [MADCTL], .dcHigh, .write [0x60 ||| co], .csHigh] :=
  ⟨rfl, rfl, rfl, rfl, rfl⟩

/-- C6: `set_rotation(n)` selects table index `n mod 4` (both rotation
tables have length 4) and stores that entry's width/height/xstart/ystart as
the active geometry; in particular the active geometry after
`set_rotation(0)` equals the geometry after `set_rotation(4)`. -/
theorem setRotation_mod_table (s : DisplayState) (n : Int) :
    (rotTbl s.panelWidth s.panelHeight).length = 4 ∧
    (setRotation s n).1.rotationIdx = (n % 4).toNat ∧
    ((setRotation s n).1.width, (setRotation s n).1.height,
      (setRotation s n).1.xstart, (setRotation s n).1.ystart) =
      ((rotTbl s.panelWidth s.panelHeight).getD (n % 4).toNat (0, 0, 0, 0, 0)).2 ∧
    ((setRotation s 0).1.width, (setRotation s 0).1.height,
      (setRotation s 0).1.xstart, (setRotation s 0).1.ystart) =
      ((setRotation s 4).1.width, (setRotation s 4).1.height,
        (setRotation s 4).1.xstart, (setRotation s 4).1.ystart) := by
  have hlen : (rotTbl s.panelWidth s.panelHeight).length = 4 := by
    rw [rotTbl]; split <;> rfl
  refine ⟨hlen, ?_, ?_, ?_⟩
  · simp [setRotation, hlen]
  · simp [setRotation, hlen]
  · simp [setRotation, hlen]

/-- C8: with horizontal wrap enabled and active width 240, `pixel(245, 10)`
issues exactly the traffic of `pixel(5, 10)` (x is wrapped modulo the active
width before the bounds check); with all wrap options disabled, the
out-of-range `pixel(245, 10)` produces no transport traffic at all. -/
theorem pixel_wrap_and_clip (s t : DisplayState) (color : Nat)
    (hsw : s.width = 240) (hs : s.options &&& OPTIONS_WRAP_H ≠ 0)
    (htw : t.width = 240) (ht : t.options = 0) :
    pixelEvents s 245 10 color = pixelEvents s 5 10 color ∧
    pixelEvents t 245 10 color = [] := by
  constructor
  · have h245 : (245 : Int) % ((s.width : Nat) : Int) = 5 := by rw [hsw]; decide
    have h5 : (5 : Int) % ((s.width : Nat) : Int) = 5 := by rw [hsw]; decide
    simp only [pixelEvents, hs, ne_eq, not_false_eq_true, if_true, h245, h5]
  · have h245 : ¬ ((245 : Int) < ((t.width : Nat) : Int)) := by rw [htw]; decide
    simp [pixelEvents, ht, OPTIONS_WRAP_H, OPTIONS_WRAP_V, h245]

/-- Witness for the C8 theorem at concrete states. -/
theorem pixel_wrap_and_clip_witness :
    pixelEvents (initState 240 320 0 2) 245 10 7 =
      pixelEvents (initState 240 320 0 2) 5 10 7 ∧
    pixelEvents (initState 240 320 0 0) 245 10 7 = [] :=
  pixel_wrap_and_clip (initState 240 320 0 2) (initState 240 320 0 0) 7
    (by decide) (by decide) (by decide) (by decide)

set_option maxRecDepth 4000 in
/-- The red component computation of `color565`, evaluated over all byte
values: masking to the top 5 bits and shifting left 8 places the value
`r / 8` at bit 11. -/
lemma color565_red_component : ∀ r, r < 256 → (r &&& 0xF8) <<< 8 = 2048 * (r / 8) := by
  decide

set_option maxRecDepth 4000 in
/-- The green component computation of `color565` over all byte values. -/
lemma color565_green_component : ∀ g, g < 256 → (g &&& 0xFC) <<< 3 = 32 * (g / 4) := by
  decide

set_option maxRecDepth 4000 in
/-- The blue component computation of `color565` over all byte values. -/
lemma color565_blue_component : ∀ b, b < 256 → b >>> 3 = b / 8 := by
  decide

/-- C9: `color565` is a pure function computing
`((r & 0xF8) << 8) | ((g & 0xFC) << 3) | (b >> 3)`; over byte inputs this
packs the top 5/6/5 bits of r/g/b into disjoint fields with no rounding
(equivalently `2048*(r/8) + 32*(g/4) + b/8`), the result fits in 16 bits,
and `color565(0xF8, 0xFC, 0xF8) = 0xFFFF`. -/
theorem color565_top_bits (r g b : Nat) (hr : r < 256) (hg : g < 256) (hb : b < 256) :
    color565 r g b = ((r &&& 0xF8) <<< 8) ||| ((g &&& 0xFC) <<< 3) ||| (b >>> 3) ∧
    color565 r g b = 2048 * (r / 8) + 32 * (g / 4) + b / 8 ∧
    color565 r g b < 65536 ∧
    color565 0xF8 0xFC 0xF8 = 0xFFFF := by
  have hb8 : b / 8 < 2 ^ 5 := by norm_num; omega
  have hgb : 2 ^ 5 * (g / 4) + b / 8 < 2 ^ 11 := by norm_num; omega
  have h2 : color565 r g b = 2048 * (r / 8) + 32 * (g / 4) + b / 8 := by
    rw [color565, color565_red_component r hr, color565_green_component g hg,
      color565_blue_component b hb]
    calc (2048 * (r / 8)) ||| (32 * (g / 4)) ||| (b / 8)
        = 2 ^ 11 * (r / 8) ||| (2 ^ 5 * (g / 4) ||| b / 8) := by
          rw [Nat.lor_assoc]; norm_num
      _ = 2 ^ 11 * (r / 8) ||| (2 ^ 5 * (g / 4) + b / 8) := by
          rw [← Nat.mul_add_lt_is_or hb8]
      _ = 2 ^ 11 * (r / 8) + (2 ^ 5 * (g / 4) + b / 8) := by
          rw [← Nat.mul_add_lt_is_or hgb]
      _ = 2048 * (r / 8) + 32 * (g / 4) + b / 8 := by ring
  refine ⟨rfl, h2, ?_, by decide⟩
  rw [h2]; omega

/-- Witness for the C9 theorem at the boundary input. -/
theorem color565_top_bits_witness :
    color565 0xF8 0xFC 0xF8 =
      ((0xF8 &&& 0xF8) <<< 8) ||| ((0xFC &&& 0xFC) <<< 3) ||| (0xF8 >>> 3) ∧
    color565 0xF8 0xFC 0xF8 = 2048 * (0xF8 / 8) + 32 * (0xFC / 4) + 0xF8 / 8 ∧
    color565 0xF8 0xFC 0xF8 < 65536 ∧
    color565 0xF8 0xFC 0xF8 = 0xFFFF :=
  color565_top_bits 0xF8 0xFC 0xF8 (by decide) (by decide) (by decide)

/-- C10: when both wrap bits are set, `pixel` never takes the silent-drop
branch — for every integer x and y (negatives included) it emits exactly one
1x1 window set at `(x mod width, y mod height)` followed by one two-byte
data write, and the wrapped coordinates always lie inside the active area
because `emod` by a positive modulus is non-negative. -/
theorem pixel_both_wrap_always_draws (s : DisplayState) (x y : Int) (color : Nat)
    (hH : s.options &&& OPTIONS_WRAP_H ≠ 0) (hV : s.options &&& OPTIONS_WRAP_V ≠ 0)
    (hw : 0 < s.width) (hh : 0 < s.height) :
    0 ≤ x % (s.width : Int) ∧ x % (s.width : Int) < (s.width : Int) ∧
    0 ≤ y % (s.height : Int) ∧ y % (s.height : Int) < (s.height : Int) ∧
    pixelEvents s x y color =
      setWindowEvents s (x % (s.width : Int)) (y % (s.height : Int))
        (x % (s.width : Int)) (y % (s.height : Int)) ++
      dataEvents [(color >>> 8) &&& 0xFF, color &&& 0xFF] := by
  have hwi : (0 : Int) < (s.width : Int) := by exact_mod_cast hw
  have hhi : (0 : Int) < (s.height : Int) := by exact_mod_cast hh
  have hx0 : 0 ≤ x % (s.width : Int) := Int.emod_nonneg x (ne_of_gt hwi)
  have hx1 : x % (s.width : Int) < (s.width : Int) := Int.emod_lt_of_pos x hwi
  have hy0 : 0 ≤ y % (s.height : Int) := Int.emod_nonneg y (ne_of_gt hhi)
  have hy1 : y % (s.height : Int) < (s.height : Int) := Int.emod_lt_of_pos y hhi
  refine ⟨hx0, hx1, hy0, hy1, ?_⟩
  simp only [pixelEvents, hH, hV, ne_eq, not_false_eq_true, if_true]
  rw [if_pos ⟨hx0, hx1, hy0, hy1⟩]

/-- Witness for the C10 theorem at a concrete state and negative/overflowing
coordinates. -/
theorem pixel_both_wrap_always_draws_witness :
    0 ≤ (-7 : Int) % ((initState 240 320 0 6).width : Int) ∧
    (-7 : Int) % ((initState 240 320 0 6).width : Int) <
      ((initState 240 320 0 6).width : Int) ∧
    0 ≤ (500 : Int) % ((initState 240 320 0 6).height : Int) ∧
    (500 : Int) % ((initState 240 320 0 6).height : Int) <
      ((initState 240 320 0 6).height : Int) ∧
    pixelEvents (initState 240 320 0 6) (-7) 500 3 =
      setWindowEvents (initState 240 320 0 6)
        ((-7 : Int) % ((initState 240 320 0 6).width : Int))
        ((500 : Int) % ((initState 240 320 0 6).height : Int))
        ((-7 : Int) % ((initState 240 320 0 6).width : Int))
        ((500 : Int) % ((initState 240 320 0 6).height : Int)) ++
      dataEvents [((3 : Nat) >>> 8) &&& 0xFF, (3 : Nat) &&& 0xFF] :=
  pixel_both_wrap_always_draws (initState 240 320 0 6) (-7) 500 3
    (by decide) (by decide) (by decide) (by decide)
